import Mathlib

/-!
Shallow embedding of `drivers/clocksource/bcm_kona_timer.c`.

Hardware register reads are modelled by an oracle `r : ℕ → ℕ → ℕ`
(`r n off` is the 32-bit value returned by the `n`-th `readl` of the run
when it targets offset `off`); every `readl` consumes one oracle index.
Register writes and consumer-callback invocations are recorded as an
`KAction` trace.  The global registry (`timers[]`, `num_timers`,
`local_timer`) is a `KonaState` with an explicit pointer heap so that
`kzalloc`/`kfree` and dangling table entries are observable.
-/

/-- Register offsets, from the `#define` block of the driver. -/
def KONA_GPTIMER_STCS_OFFSET : ℕ := 0x00

def KONA_GPTIMER_STCLO_OFFSET : ℕ := 0x04

def KONA_GPTIMER_STCHI_OFFSET : ℕ := 0x08

def KONA_GPTIMER_STCM0_OFFSET : ℕ := 0x0C

def KONA_GPTIMER_STCS_TIMER_MATCH_SHIFT : ℕ := 0

def KONA_GPTIMER_STCS_TIMER_MATCH_MASK : ℕ := 0x04

def KONA_GPTIMER_STCS_COMPARE_ENABLE_SHIFT : ℕ := 4

def KONA_GPTIMER_STCS_COMPARE_ENABLE_SYNC_SHIFT : ℕ := 8

def KONA_GPTIMER_STCS_STCM0_SYNC_SHIFT : ℕ := 12

def MAX_NUM_TIMERS : ℕ := 3

def MAX_NUM_CHANNELS : ℕ := 4

/-- C bitwise complement `~m` on a `uint32_t`. -/
def compl32 (m : ℕ) : ℕ := (2 ^ 32 - 1) ^^^ m

/-- One `readl`: the oracle's value truncated to 32 bits. -/
def readl (r : ℕ → ℕ → ℕ) (n off : ℕ) : ℕ := r n off % 2 ^ 32

/-- The `do { ... } while (--loop_limit);` polling loop shared by
`kona_wait_for_compare_val_sync` and `kona_wait_for_compare_enable_sync`.
Returns the oracle index after the loop and whether the loop timed out
(`!loop_limit`, i.e. the `pr_err` branch). -/
def syncWaitAux (cond : ℕ → Bool) : ℕ → ℕ → ℕ × Bool
  | 0, n => (n, true)
  | fuel + 1, n =>
    if cond n then (n + 1, false)
    else if fuel = 0 then (n + 1, true)
    else syncWaitAux cond fuel (n + 1)

/-- `kona_wait_for_compare_val_sync`: poll STCS up to 1000 times until
bit `(12 + ch_num)` is set. -/
def kona_wait_for_compare_val_sync (r : ℕ → ℕ → ℕ) (n ch : ℕ) : ℕ × Bool :=
  syncWaitAux
    (fun k => decide (readl r k KONA_GPTIMER_STCS_OFFSET &&&
      (1 <<< (KONA_GPTIMER_STCS_STCM0_SYNC_SHIFT + ch)) ≠ 0)) 1000 n

/-- `kona_wait_for_compare_enable_sync`: poll STCS up to 1000 times until
`((reg & (1 << shift)) >> shift) == target` with `shift = 8 + ch_num`. -/
def kona_wait_for_compare_enable_sync (r : ℕ → ℕ → ℕ) (n ch target : ℕ) : ℕ × Bool :=
  syncWaitAux
    (fun k => decide ((readl r k KONA_GPTIMER_STCS_OFFSET &&&
      (1 <<< (KONA_GPTIMER_STCS_COMPARE_ENABLE_SYNC_SHIFT + ch))) >>>
      (KONA_GPTIMER_STCS_COMPARE_ENABLE_SYNC_SHIFT + ch) = target)) 1000 n

/-- Result of `kona_timer_get_counter`: oracle index after the call, the
`*msw`/`*lsw` out-parameters (written even on the failure path), and whether
the call returned 0 (`ok = true`) or `-ETIMEDOUT` (`ok = false`). -/
structure CounterRead where
  next : ℕ
  msw : ℕ
  lsw : ℕ
  ok : Bool
deriving DecidableEq

/-- The `do { ... } while (--loop_limit);` body of `kona_timer_get_counter`:
read STCHI, read STCLO, re-read STCHI; stop when the two STCHI reads agree. -/
def getCounterAux (r : ℕ → ℕ → ℕ) : ℕ → ℕ → CounterRead
  | 0, n => ⟨n, 0, 0, false⟩
  | fuel + 1, n =>
    let m := readl r n KONA_GPTIMER_STCHI_OFFSET
    let l := readl r (n + 1) KONA_GPTIMER_STCLO_OFFSET
    let chk := readl r (n + 2) KONA_GPTIMER_STCHI_OFFSET
    if m = chk then ⟨n + 3, m, l, true⟩
    else if fuel = 0 then ⟨n + 3, m, l, false⟩
    else getCounterAux r fuel (n + 3)

/-- `kona_timer_get_counter` with its `loop_limit = 3`. -/
def kona_timer_get_counter (r : ℕ → ℕ → ℕ) (n : ℕ) : CounterRead :=
  getCounterAux r 3 n

/-- Observable side effects of the driver: register writes, invoking the
attached clockevent consumer callback, disabling a channel's IRQ. -/
inductive KAction where
  | write (off val : ℕ) : KAction
  | invoke : KAction
  | disableIrq (irq : ℕ) : KAction
deriving DecidableEq

/-- `kona_timer_disable_and_clear`: read STCS, mask with
`~KONA_GPTIMER_STCS_TIMER_MATCH_MASK`, set bit `ch`, clear bit `4 + ch`,
write back, then wait for compare-enable sync towards 0.  Returns the oracle
index after the call and the value written to STCS. -/
def kona_timer_disable_and_clear (r : ℕ → ℕ → ℕ) (n ch : ℕ) : ℕ × ℕ :=
  let reg := readl r n KONA_GPTIMER_STCS_OFFSET
  let reg1 := reg &&& compl32 KONA_GPTIMER_STCS_TIMER_MATCH_MASK
  let reg2 := reg1 ||| (1 <<< (KONA_GPTIMER_STCS_TIMER_MATCH_SHIFT + ch))
  let reg3 := reg2 &&& compl32 (1 <<< (KONA_GPTIMER_STCS_COMPARE_ENABLE_SHIFT + ch))
  let w := kona_wait_for_compare_enable_sync r (n + 1) ch 0
  (w.1, reg3)

/-- `kona_timer_interrupt`: disable-and-clear the channel, then invoke the
clockevent handler when one is attached (`has_clockevent && event_handler`).
Always returns `IRQ_HANDLED` (the trailing `true`). -/
def kona_timer_interrupt (r : ℕ → ℕ → ℕ) (n ch : ℕ) (hasConsumer : Bool) :
    ℕ × List KAction × Bool :=
  let d := kona_timer_disable_and_clear r n ch
  (d.1,
   KAction.write KONA_GPTIMER_STCS_OFFSET d.2 ::
     (if hasConsumer then [KAction.invoke] else []),
   true)

/-- Result of `kona_timer_set_next_event`: oracle index after the call, the
C return value, the recorded writes, the counter out-parameters, and the STCS
value read and written by the read-modify-write (0 when aborted). -/
structure SneResult where
  next : ℕ
  ret : ℤ
  actions : List KAction
  msw : ℕ
  lsw : ℕ
  regRead : ℕ
  regWritten : ℕ
deriving DecidableEq

/-- `kona_timer_set_next_event`: read the counter (abort with `-ETIMEDOUT`
on failure), write `lsw + clc` to the channel's compare register, wait for
compare-value sync, read-modify-write STCS (mask `~0x04`, set bit `ch`, set
bit `4 + ch`), wait for compare-enable sync towards 1, return 0. -/
def kona_timer_set_next_event (r : ℕ → ℕ → ℕ) (n clc ch : ℕ) : SneResult :=
  let g := kona_timer_get_counter r n
  if g.ok = false then ⟨g.next, -110, [], g.msw, g.lsw, 0, 0⟩
  else
    let cmpVal := (g.lsw + clc) % 2 ^ 32
    let w1 := kona_wait_for_compare_val_sync r g.next ch
    let reg := readl r w1.1 KONA_GPTIMER_STCS_OFFSET
    let reg1 := reg &&& compl32 KONA_GPTIMER_STCS_TIMER_MATCH_MASK
    let reg2 := reg1 ||| (1 <<< (KONA_GPTIMER_STCS_TIMER_MATCH_SHIFT + ch))
    let reg3 := reg2 ||| (1 <<< (KONA_GPTIMER_STCS_COMPARE_ENABLE_SHIFT + ch))
    let w2 := kona_wait_for_compare_enable_sync r (w1.1 + 1) ch 1
    ⟨w2.1, 0,
     [KAction.write (KONA_GPTIMER_STCM0_OFFSET + 4 * ch) cmpVal,
      KAction.write KONA_GPTIMER_STCS_OFFSET reg3],
     g.msw, g.lsw, reg, reg3⟩

/-- `kona_timer_clocksrc_read`: assemble `((u64)msw << 32) + lsw`, ignoring
the return value of `kona_timer_get_counter`. -/
def kona_timer_clocksrc_read (r : ℕ → ℕ → ℕ) (n : ℕ) : ℕ × ℕ :=
  let g := kona_timer_get_counter r n
  (g.next, g.msw * 2 ^ 32 + g.lsw)

/-- `struct kona_bcm_timer_channel` (the `clock_event_device` reduced to its
`has_clockevent` attachment flag). -/
structure KonaChannel where
  timer_id : ℕ
  id : ℕ
  irq : ℕ
  has_clockevent : Bool
deriving DecidableEq

/-- `struct kona_bcm_timer`, register base elided (register traffic goes
through the oracle). -/
structure KonaTimer where
  id : ℕ
  rate : ℕ
  is_gptimer : Bool
  num_channels : ℕ
  is_initialized : Bool
  has_clocksource : Bool
  channels : List KonaChannel
deriving DecidableEq

/-- The file-scope globals: `timers[]` (a table of pointers), the pointer
heap (so `kfree` is observable), the bump allocator, `num_timers`,
`local_timer` and the number of `cpuhp_setup_state` installations. -/
structure KonaState where
  table : ℕ → Option ℕ
  heap : ℕ → Option KonaTimer
  nextPtr : ℕ
  num_timers : ℕ
  local_timer : ℤ
  cpuhp_installs : ℕ

/-- Device-tree geometry and host-environment outcomes consumed by
`kona_timer_init`. -/
structure Geometry where
  allocOk : Bool
  clkPresent : Bool
  clkRate : ℕ
  freq : ℕ
  iomapOk : Bool
  isGptimer : Bool
  irqCount : ℕ
  irqAt : ℕ → ℕ
  bindOk : ℕ → Bool

/-- `kzalloc` zeroes the channel array. -/
def zeroChannel : KonaChannel := ⟨0, 0, 0, false⟩

/-- Module-load state: empty table, `num_timers = 0`, `local_timer = -1`. -/
def initialKonaState : KonaState := ⟨fun _ => none, fun _ => none, 0, 0, -1, 0⟩

/-- The per-channel `irq_of_parse_and_map` + `request_irq` loop of
`kona_timer_init`; on failure returns the failing index `i` (the unwind
frees indices below it in reverse order). -/
def bindChannels (g : Geometry) (tid : ℕ) : ℕ → ℕ → Except ℕ (List KonaChannel)
  | 0, _ => Except.ok []
  | k + 1, i =>
    if g.bindOk i then
      match bindChannels g tid k (i + 1) with
      | Except.ok rest => Except.ok (⟨tid, i, g.irqAt i, false⟩ :: rest)
      | Except.error j => Except.error j
    else Except.error i

/-- `kona_timer_init`.  Returns the new global state, the C return value and
the list of IRQs passed to `free_irq` on the unwind path, in call order. -/
def kona_timer_init (s : KonaState) (g : Geometry) : KonaState × ℤ × List ℕ :=
  if s.num_timers + 1 ≥ MAX_NUM_TIMERS then (s, -22, [])
  else if g.allocOk = false then (s, -12, [])
  else
    let ptr := s.nextPtr
    let rate? : Option ℕ :=
      if g.clkPresent then some g.clkRate
      else if g.freq ≠ 0 then some g.freq
      else none
    match rate? with
    | none => ({ s with nextPtr := ptr + 1, heap := Function.update s.heap ptr none }, -22, [])
    | some rate =>
      if g.iomapOk = false then
        ({ s with nextPtr := ptr + 1, heap := Function.update s.heap ptr none }, -22, [])
      else if g.irqCount = 0 then
        ({ s with nextPtr := ptr + 1, heap := Function.update s.heap ptr none }, -22, [])
      else
        let numCh := min g.irqCount MAX_NUM_CHANNELS
        let table' := Function.update s.table s.num_timers (some ptr)
        if g.isGptimer then
          let tmr : KonaTimer :=
            { id := s.num_timers, rate := rate, is_gptimer := true,
              num_channels := numCh, is_initialized := true,
              has_clocksource := true,
              channels := List.replicate MAX_NUM_CHANNELS zeroChannel }
          ({ s with table := table', heap := Function.update s.heap ptr (some tmr),
                    nextPtr := ptr + 1, num_timers := s.num_timers + 1 }, 0, [])
        else
          match bindChannels g s.num_timers numCh 0 with
          | Except.error j =>
            ({ s with table := table', heap := Function.update s.heap ptr none,
                      nextPtr := ptr + 1 }, -22,
             ((List.range j).map g.irqAt).reverse)
          | Except.ok chans =>
            let tmr : KonaTimer :=
              { id := s.num_timers, rate := rate, is_gptimer := false,
                num_channels := numCh, is_initialized := true,
                has_clocksource := false,
                channels := chans ++ List.replicate (MAX_NUM_CHANNELS - numCh) zeroChannel }
            ({ s with table := table', heap := Function.update s.heap ptr (some tmr),
                      nextPtr := ptr + 1, num_timers := s.num_timers + 1,
                      local_timer := (s.num_timers : ℤ),
                      cpuhp_installs := s.cpuhp_installs + 1 }, 0, [])

/-- `kona_timer_cpu_start`: only guard is `local_timer < 0` (`-ENODEV`);
then `timers[local_timer]->channels[cpu]` is accessed with no bound check
(`none` models the out-of-bounds access), and the channel gets its
clockevent attached. -/
def kona_timer_cpu_start (s : KonaState) (cpu : ℕ) : Option (ℤ × KonaState) :=
  if s.local_timer < 0 then some (-19, s)
  else
    match s.table s.local_timer.toNat with
    | none => none
    | some ptr =>
      match s.heap ptr with
      | none => none
      | some t =>
        match t.channels.get? cpu with
        | none => none
        | some chn =>
          let chn' := { chn with has_clockevent := true }
          let t' := { t with channels := t.channels.set cpu chn' }
          some (0, { s with heap := Function.update s.heap ptr (some t') })

/-- `kona_timer_cpu_stop`: same guard and unchecked indexing; performs the
channel's shutdown (`kona_timer_disable_and_clear`) and disables its IRQ. -/
def kona_timer_cpu_stop (r : ℕ → ℕ → ℕ) (n : ℕ) (s : KonaState) (cpu : ℕ) :
    Option (ℤ × List KAction) :=
  if s.local_timer < 0 then some (-19, [])
  else
    match s.table s.local_timer.toNat with
    | none => none
    | some ptr =>
      match s.heap ptr with
      | none => none
      | some t =>
        match t.channels.get? cpu with
        | none => none
        | some chn =>
          let d := kona_timer_disable_and_clear r n chn.id
          some (0, [KAction.write KONA_GPTIMER_STCS_OFFSET d.2,
                    KAction.disableIrq chn.irq])

/-! ### Generic lemmas about the bounded polling loop -/

theorem syncWaitAux_fst_le (cond : ℕ → Bool) (fuel n : ℕ) :
    (syncWaitAux cond fuel n).1 ≤ n + fuel := by
  induction fuel generalizing n with
  | zero => simp [syncWaitAux]
  | succ f ih =>
    simp only [syncWaitAux]
    split
    · simp
    · split
      · simp
      · exact le_trans (ih (n + 1)) (by omega)

theorem syncWaitAux_found (cond : ℕ → Bool) (k : ℕ) :
    ∀ fuel n, k < fuel → (∀ j, j < k → cond (n + j) = false) → cond (n + k) = true →
    syncWaitAux cond fuel n = (n + k + 1, false) := by
  induction k with
  | zero =>
    intro fuel n hk hmiss hhit
    obtain ⟨f, rfl⟩ : ∃ f, fuel = f + 1 := ⟨fuel - 1, by omega⟩
    simp only [syncWaitAux]
    rw [if_pos (by simpa using hhit)]
  | succ k ih =>
    intro fuel n hk hmiss hhit
    obtain ⟨f, rfl⟩ : ∃ f, fuel = f + 1 := ⟨fuel - 1, by omega⟩
    have h0 : cond n = false := by simpa using hmiss 0 (by omega)
    simp only [syncWaitAux, h0]
    rw [if_neg (by simp), if_neg (by omega)]
    have hrec := ih f (n + 1) (by omega)
      (fun j hj => by
        have h2 := hmiss (j + 1) (by omega)
        rw [show n + 1 + j = n + (j + 1) from by omega]
        exact h2)
      (by
        rw [show n + 1 + k = n + (k + 1) from by omega]
        exact hhit)
    rw [hrec, show n + 1 + k + 1 = n + (k + 1) + 1 from by omega]

theorem syncWaitAux_timeout (cond : ℕ → Bool) :
    ∀ fuel n, 0 < fuel → (∀ k, k < fuel → cond (n + k) = false) →
    syncWaitAux cond fuel n = (n + fuel, true) := by
  intro fuel
  induction fuel with
  | zero => omega
  | succ f ih =>
    intro n _ hmiss
    have h0 : cond n = false := by simpa using hmiss 0 (by omega)
    simp only [syncWaitAux, h0]
    rw [if_neg (by simp)]
    rcases Nat.eq_zero_or_pos f with hf | hf
    · subst hf; simp
    · rw [if_neg (by omega)]
      have hrec := ih (n + 1) hf
        (fun k hk => by
          have h2 := hmiss (k + 1) (by omega)
          rw [show n + 1 + k = n + (k + 1) from by omega]
          exact h2)
      rw [hrec, show n + 1 + f = n + (f + 1) from by omega]

/-! ### Unfolding of the three-attempt counter read -/

theorem kona_timer_get_counter_raw (r : ℕ → ℕ → ℕ) (n : ℕ) :
    kona_timer_get_counter r n =
      (if readl r n KONA_GPTIMER_STCHI_OFFSET = readl r (n + 2) KONA_GPTIMER_STCHI_OFFSET then
        ⟨n + 3, readl r n KONA_GPTIMER_STCHI_OFFSET,
          readl r (n + 1) KONA_GPTIMER_STCLO_OFFSET, true⟩
      else if readl r (n + 3) KONA_GPTIMER_STCHI_OFFSET =
          readl r (n + 3 + 2) KONA_GPTIMER_STCHI_OFFSET then
        ⟨n + 3 + 3, readl r (n + 3) KONA_GPTIMER_STCHI_OFFSET,
          readl r (n + 3 + 1) KONA_GPTIMER_STCLO_OFFSET, true⟩
      else if readl r (n + 3 + 3) KONA_GPTIMER_STCHI_OFFSET =
          readl r (n + 3 + 3 + 2) KONA_GPTIMER_STCHI_OFFSET then
        ⟨n + 3 + 3 + 3, readl r (n + 3 + 3) KONA_GPTIMER_STCHI_OFFSET,
          readl r (n + 3 + 3 + 1) KONA_GPTIMER_STCLO_OFFSET, true⟩
      else
        ⟨n + 3 + 3 + 3, readl r (n + 3 + 3) KONA_GPTIMER_STCHI_OFFSET,
          readl r (n + 3 + 3 + 1) KONA_GPTIMER_STCLO_OFFSET, false⟩) :=
  rfl

theorem kona_timer_get_counter_eq (r : ℕ → ℕ → ℕ) (n : ℕ) :
    kona_timer_get_counter r n =
      (if readl r n KONA_GPTIMER_STCHI_OFFSET = readl r (n + 2) KONA_GPTIMER_STCHI_OFFSET then
        ⟨n + 3, readl r n KONA_GPTIMER_STCHI_OFFSET,
          readl r (n + 1) KONA_GPTIMER_STCLO_OFFSET, true⟩
      else if readl r (n + 3) KONA_GPTIMER_STCHI_OFFSET =
          readl r (n + 5) KONA_GPTIMER_STCHI_OFFSET then
        ⟨n + 6, readl r (n + 3) KONA_GPTIMER_STCHI_OFFSET,
          readl r (n + 4) KONA_GPTIMER_STCLO_OFFSET, true⟩
      else if readl r (n + 6) KONA_GPTIMER_STCHI_OFFSET =
          readl r (n + 8) KONA_GPTIMER_STCHI_OFFSET then
        ⟨n + 9, readl r (n + 6) KONA_GPTIMER_STCHI_OFFSET,
          readl r (n + 7) KONA_GPTIMER_STCLO_OFFSET, true⟩
      else
        ⟨n + 9, readl r (n + 6) KONA_GPTIMER_STCHI_OFFSET,
          readl r (n + 7) KONA_GPTIMER_STCLO_OFFSET, false⟩) := by
  rw [kona_timer_get_counter_raw r n,
    show n + 3 + 2 = n + 5 from by omega, show n + 3 + 3 = n + 6 from by omega,
    show n + 3 + 1 = n + 4 from by omega, show n + 6 + 2 = n + 8 from by omega,
    show n + 6 + 3 = n + 9 from by omega, show n + 6 + 1 = n + 7 from by omega]

/-! ### Bit-level helpers for the STCS read-modify-write values -/

theorem readl_lt (r : ℕ → ℕ → ℕ) (n off : ℕ) : readl r n off < 2 ^ 32 :=
  Nat.mod_lt _ (by norm_num)

theorem testBit_compl32 (m b : ℕ) :
    (compl32 m).testBit b = (decide (b < 32) ^^ m.testBit b) := by
  rw [compl32, Nat.testBit_xor, Nat.testBit_two_pow_sub_one]

theorem testBit_high_false {x b : ℕ} (hx : x < 2 ^ 32) (hb : ¬b < 32) :
    x.testBit b = false :=
  Nat.testBit_lt_two_pow
    (lt_of_lt_of_le hx (Nat.pow_le_pow_right (by norm_num) (by omega)))

/-- Bits of the STCS value written by `kona_timer_set_next_event`:
`reg` masked with `~0x04`, then bits `ch` and `4 + ch` set. -/
theorem setStatusBits (reg ch : ℕ) (hch : ch < 4) (hreg : reg < 2 ^ 32) :
    (((reg &&& compl32 4) ||| 2 ^ ch) ||| 2 ^ (4 + ch)).testBit ch = true ∧
    (((reg &&& compl32 4) ||| 2 ^ ch) ||| 2 ^ (4 + ch)).testBit (4 + ch) = true ∧
    (∀ b, b ≠ ch → b ≠ 4 + ch → b ≠ 2 →
      (((reg &&& compl32 4) ||| 2 ^ ch) ||| 2 ^ (4 + ch)).testBit b = reg.testBit b) ∧
    (ch ≠ 2 → (((reg &&& compl32 4) ||| 2 ^ ch) ||| 2 ^ (4 + ch)).testBit 2 = false) := by
  refine ⟨?_, ?_, ?_, ?_⟩
  · simp [Nat.testBit_lor, Nat.testBit_two_pow_self]
  · simp [Nat.testBit_lor, Nat.testBit_two_pow_self]
  · intro b hb1 hb2 hb3
    have hcb : (2 ^ ch : ℕ).testBit b = false := Nat.testBit_two_pow_of_ne (Ne.symm hb1)
    have hc4b : (2 ^ (4 + ch) : ℕ).testBit b = false := Nat.testBit_two_pow_of_ne (Ne.symm hb2)
    have h4 : (4 : ℕ).testBit b = false := by
      rw [show (4 : ℕ) = 2 ^ 2 from rfl]
      exact Nat.testBit_two_pow_of_ne (Ne.symm hb3)
    by_cases hb32 : b < 32
    · simp [Nat.testBit_lor, Nat.testBit_land, testBit_compl32, hcb, hc4b, h4, hb32]
    · have hrb : reg.testBit b = false := testBit_high_false hreg hb32
      simp [Nat.testBit_lor, Nat.testBit_land, testBit_compl32, hcb, hc4b, h4, hb32, hrb]
  · intro hch2
    have hc2 : (2 ^ ch : ℕ).testBit 2 = false := Nat.testBit_two_pow_of_ne hch2
    have hc42 : (2 ^ (4 + ch) : ℕ).testBit 2 = false :=
      Nat.testBit_two_pow_of_ne (by omega)
    have h4 : (4 : ℕ).testBit 2 = true := by decide
    simp [Nat.testBit_lor, Nat.testBit_land, testBit_compl32, hc2, hc42, h4]

/-- Bits of the STCS value written by `kona_timer_disable_and_clear`:
`reg` masked with `~0x04`, bit `ch` set, bit `4 + ch` cleared. -/
theorem clearStatusBits (reg ch : ℕ) (hch : ch < 4) (hreg : reg < 2 ^ 32) :
    (((reg &&& compl32 4) ||| 2 ^ ch) &&& compl32 (2 ^ (4 + ch))).testBit ch = true ∧
    (((reg &&& compl32 4) ||| 2 ^ ch) &&& compl32 (2 ^ (4 + ch))).testBit (4 + ch) = false ∧
    (∀ b, b ≠ ch → b ≠ 4 + ch → b ≠ 2 →
      (((reg &&& compl32 4) ||| 2 ^ ch) &&& compl32 (2 ^ (4 + ch))).testBit b =
        reg.testBit b) ∧
    (ch ≠ 2 → (((reg &&& compl32 4) ||| 2 ^ ch) &&& compl32 (2 ^ (4 + ch))).testBit 2 = false) := by
  have hne : (2 ^ (4 + ch) : ℕ).testBit ch = false := Nat.testBit_two_pow_of_ne (by omega)
  refine ⟨?_, ?_, ?_, ?_⟩
  · simp [Nat.testBit_lor, Nat.testBit_land, testBit_compl32, Nat.testBit_two_pow_self, hne,
      show ch < 32 from by omega]
  · simp [Nat.testBit_lor, Nat.testBit_land, testBit_compl32, Nat.testBit_two_pow_self,
      show 4 + ch < 32 from by omega]
  · intro b hb1 hb2 hb3
    have hcb : (2 ^ ch : ℕ).testBit b = false := Nat.testBit_two_pow_of_ne (Ne.symm hb1)
    have hc4b : (2 ^ (4 + ch) : ℕ).testBit b = false := Nat.testBit_two_pow_of_ne (Ne.symm hb2)
    have h4 : (4 : ℕ).testBit b = false := by
      rw [show (4 : ℕ) = 2 ^ 2 from rfl]
      exact Nat.testBit_two_pow_of_ne (Ne.symm hb3)
    by_cases hb32 : b < 32
    · simp [Nat.testBit_lor, Nat.testBit_land, testBit_compl32, hcb, hc4b, h4, hb32]
    · have hrb : reg.testBit b = false := testBit_high_false hreg hb32
      simp [Nat.testBit_lor, Nat.testBit_land, testBit_compl32, hcb, hc4b, h4, hb32, hrb]
  · intro hch2
    have hc2 : (2 ^ ch : ℕ).testBit 2 = false := Nat.testBit_two_pow_of_ne hch2
    have hc42 : (2 ^ (4 + ch) : ℕ).testBit 2 = false :=
      Nat.testBit_two_pow_of_ne (by omega)
    have h4 : (4 : ℕ).testBit 2 = true := by decide
    simp [Nat.testBit_lor, Nat.testBit_land, testBit_compl32, hc2, hc42, h4]

/-- `kona_timer_set_next_event` on the path where the counter read succeeds. -/
theorem kona_timer_set_next_event_ok (r : ℕ → ℕ → ℕ) (n clc ch : ℕ)
    (hok : (kona_timer_get_counter r n).ok = true) :
    kona_timer_set_next_event r n clc ch =
      ⟨(kona_wait_for_compare_enable_sync r
          ((kona_wait_for_compare_val_sync r (kona_timer_get_counter r n).next ch).1 + 1) ch 1).1,
       0,
       [KAction.write (KONA_GPTIMER_STCM0_OFFSET + 4 * ch)
          (((kona_timer_get_counter r n).lsw + clc) % 2 ^ 32),
        KAction.write KONA_GPTIMER_STCS_OFFSET
          (((readl r (kona_wait_for_compare_val_sync r (kona_timer_get_counter r n).next ch).1
              KONA_GPTIMER_STCS_OFFSET &&& compl32 4) ||| 2 ^ ch) ||| 2 ^ (4 + ch))],
       (kona_timer_get_counter r n).msw, (kona_timer_get_counter r n).lsw,
       readl r (kona_wait_for_compare_val_sync r (kona_timer_get_counter r n).next ch).1
         KONA_GPTIMER_STCS_OFFSET,
       ((readl r (kona_wait_for_compare_val_sync r (kona_timer_get_counter r n).next ch).1
           KONA_GPTIMER_STCS_OFFSET &&& compl32 4) ||| 2 ^ ch) ||| 2 ^ (4 + ch)⟩ := by
  simp only [kona_timer_set_next_event, hok]
  simp [KONA_GPTIMER_STCS_TIMER_MATCH_MASK, KONA_GPTIMER_STCS_TIMER_MATCH_SHIFT,
    KONA_GPTIMER_STCS_COMPARE_ENABLE_SHIFT, Nat.shiftLeft_eq]

/-- Claim C5: `set_next_event` fails (with `-ETIMEDOUT`) exactly when the
counter read fails; on that failure it performs no register write; whenever
the counter read succeeds it returns 0 regardless of any sync-wait timeout. -/
theorem c5_set_next_event_error_policy (r : ℕ → ℕ → ℕ) (n clc ch : ℕ) :
    ((kona_timer_set_next_event r n clc ch).ret = -110 ↔
      (kona_timer_get_counter r n).ok = false) ∧
    ((kona_timer_get_counter r n).ok = false →
      (kona_timer_set_next_event r n clc ch).actions = []) ∧
    ((kona_timer_get_counter r n).ok = true →
      (kona_timer_set_next_event r n clc ch).ret = 0) := by
  cases h : (kona_timer_get_counter r n).ok <;>
    simp [kona_timer_set_next_event, h]

/-- Oracle refuting counter-read convergence: successive STCHI reads always
differ. -/
def rBadCounter : ℕ → ℕ → ℕ := fun k _ => k

/-- Oracle on which every wait condition holds at the first poll and the
counter reads agree. -/
def rGoodCounter : ℕ → ℕ → ℕ := fun _ _ => 4294967295

/-- Witness for C5 at concrete oracles: a failing counter read yields
`-ETIMEDOUT` with no writes; a successful one yields 0. -/
theorem c5_set_next_event_error_policy_witness :
    (kona_timer_get_counter rBadCounter 0).ok = false ∧
    (kona_timer_set_next_event rBadCounter 0 6 0).ret = -110 ∧
    (kona_timer_set_next_event rBadCounter 0 6 0).actions = [] ∧
    (kona_timer_get_counter rGoodCounter 0).ok = true ∧
    (kona_timer_set_next_event rGoodCounter 0 6 0).ret = 0 :=
  have h1 := c5_set_next_event_error_policy rBadCounter 0 6 0
  have h2 := c5_set_next_event_error_policy rGoodCounter 0 6 0
  ⟨by decide, h1.1.mpr (by decide), h1.2.1 (by decide), by decide, h2.2.2 (by decide)⟩

/-- Claim C1 (amended): arming channel `ch` writes `lsw + delta` to the
channel's own compare register and performs exactly one STCS read-modify-write
that sets bits `ch` and `4 + ch`; all other status bits are preserved
*except bit 2*, which the literal `0x04` match mask clears whenever
`ch ≠ 2`.  No other channel's compare register is written. -/
theorem c1_channel_isolation_amended (r : ℕ → ℕ → ℕ) (n clc ch : ℕ)
    (hch : ch < MAX_NUM_CHANNELS)
    (hok : (kona_timer_get_counter r n).ok = true) :
    (kona_timer_set_next_event r n clc ch).actions =
      [KAction.write (KONA_GPTIMER_STCM0_OFFSET + 4 * ch)
         (((kona_timer_get_counter r n).lsw + clc) % 2 ^ 32),
       KAction.write KONA_GPTIMER_STCS_OFFSET
         (kona_timer_set_next_event r n clc ch).regWritten] ∧
    (kona_timer_set_next_event r n clc ch).regWritten.testBit ch = true ∧
    (kona_timer_set_next_event r n clc ch).regWritten.testBit (4 + ch) = true ∧
    (∀ b, b ≠ ch → b ≠ 4 + ch → b ≠ 2 →
      (kona_timer_set_next_event r n clc ch).regWritten.testBit b =
        (kona_timer_set_next_event r n clc ch).regRead.testBit b) ∧
    (ch ≠ 2 → (kona_timer_set_next_event r n clc ch).regWritten.testBit 2 = false) := by
  have hch4 : ch < 4 := hch
  have hs := kona_timer_set_next_event_ok r n clc ch hok
  have hbits := setStatusBits
    (readl r (kona_wait_for_compare_val_sync r (kona_timer_get_counter r n).next ch).1
      KONA_GPTIMER_STCS_OFFSET) ch hch4 (readl_lt _ _ _)
  rw [hs]
  exact ⟨rfl, hbits.1, hbits.2.1, hbits.2.2.1, hbits.2.2.2⟩

/-- Oracle for the C1 end-to-end scenario: counter high = 0, low = 1000,
sync bits resolve at the first poll, and the STCS read returns `0x4`
(channel 2's match bit pending). -/
def rC1 : ℕ → ℕ → ℕ := fun k _ => [0, 1000, 0, 4096, 4, 256].getD k 0

/-- Counterexample to C1 as stated: arming channel 0 with STCS showing bit 2
set writes back a status value whose bit 2 is cleared — channel 2's match
bit is *not* left unchanged. -/
theorem c1_channel_isolation_counterexample :
    (kona_timer_set_next_event rC1 0 6 0).regRead.testBit 2 = true ∧
    (kona_timer_set_next_event rC1 0 6 0).regWritten.testBit 2 = false ∧
    (kona_timer_set_next_event rC1 0 6 0).regWritten = 17 := by
  decide

/-- Witness for C1 (amended) at the spec's end-to-end scenario: channel 0,
delta 6, counter low 1000 — compare register 0x0C gets 1006, status bits 0
and 4 are set, channel 1's bits (1 and 5) are untouched. -/
theorem c1_channel_isolation_witness :
    (0 : ℕ) < MAX_NUM_CHANNELS ∧
    (kona_timer_get_counter rC1 0).ok = true ∧
    (kona_timer_get_counter rC1 0).lsw = 1000 ∧
    ((kona_timer_get_counter rC1 0).lsw + 6) % 2 ^ 32 = 1006 ∧
    KONA_GPTIMER_STCM0_OFFSET + 4 * 0 = 12 ∧
    (kona_timer_set_next_event rC1 0 6 0).actions =
      [KAction.write (KONA_GPTIMER_STCM0_OFFSET + 4 * 0)
         (((kona_timer_get_counter rC1 0).lsw + 6) % 2 ^ 32),
       KAction.write KONA_GPTIMER_STCS_OFFSET
         (kona_timer_set_next_event rC1 0 6 0).regWritten] ∧
    (kona_timer_set_next_event rC1 0 6 0).regWritten.testBit 0 = true ∧
    (kona_timer_set_next_event rC1 0 6 0).regWritten.testBit 4 = true ∧
    (kona_timer_set_next_event rC1 0 6 0).regWritten.testBit 1 =
      (kona_timer_set_next_event rC1 0 6 0).regRead.testBit 1 ∧
    (kona_timer_set_next_event rC1 0 6 0).regWritten.testBit 5 =
      (kona_timer_set_next_event rC1 0 6 0).regRead.testBit 5 :=
  have h := c1_channel_isolation_amended rC1 0 6 0 (by decide) (by decide)
  ⟨by decide, by decide, by decide, by decide, by decide, h.1, h.2.1, h.2.2.1,
   h.2.2.2.1 1 (by decide) (by decide) (by decide),
   h.2.2.2.1 5 (by decide) (by decide) (by decide)⟩

/-- The STCS value written by `kona_timer_disable_and_clear`, in `2 ^`-form. -/
theorem kona_timer_disable_and_clear_val (r : ℕ → ℕ → ℕ) (n ch : ℕ) :
    (kona_timer_disable_and_clear r n ch).2 =
      ((readl r n KONA_GPTIMER_STCS_OFFSET &&& compl32 4) ||| 2 ^ ch) &&&
        compl32 (2 ^ (4 + ch)) := by
  simp [kona_timer_disable_and_clear, KONA_GPTIMER_STCS_TIMER_MATCH_MASK,
    KONA_GPTIMER_STCS_TIMER_MATCH_SHIFT, KONA_GPTIMER_STCS_COMPARE_ENABLE_SHIFT,
    Nat.shiftLeft_eq]

/-- Claim C4 (amended): the interrupt dispatcher performs exactly one STCS
write — with the channel's compare-enable bit `4 + ch` cleared, the channel's
match bit `ch` *set* (the write-one-to-clear acknowledge of the compare
condition, per the driver's own comment), and bit 2 cleared by the literal
`0x04` mask when `ch ≠ 2` — then invokes the attached consumer exactly once;
with no consumer attached, the event is dropped after the clearing write and
the interrupt still completes as handled. -/
theorem c4_interrupt_dispatch_amended (r : ℕ → ℕ → ℕ) (n ch : ℕ) (consumer : Bool)
    (hch : ch < MAX_NUM_CHANNELS) :
    kona_timer_interrupt r n ch consumer =
      ((kona_timer_disable_and_clear r n ch).1,
       KAction.write KONA_GPTIMER_STCS_OFFSET (kona_timer_disable_and_clear r n ch).2 ::
         (if consumer then [KAction.invoke] else []), true) ∧
    (kona_timer_disable_and_clear r n ch).2.testBit (4 + ch) = false ∧
    (kona_timer_disable_and_clear r n ch).2.testBit ch = true ∧
    (∀ b, b ≠ ch → b ≠ 4 + ch → b ≠ 2 →
      (kona_timer_disable_and_clear r n ch).2.testBit b =
        (readl r n KONA_GPTIMER_STCS_OFFSET).testBit b) ∧
    (ch ≠ 2 → (kona_timer_disable_and_clear r n ch).2.testBit 2 = false) := by
  have hch4 : ch < 4 := hch
  have hv := kona_timer_disable_and_clear_val r n ch
  have hb := clearStatusBits (readl r n KONA_GPTIMER_STCS_OFFSET) ch hch4 (readl_lt r n _)
  exact ⟨rfl, by rw [hv]; exact hb.2.1, by rw [hv]; exact hb.1,
    fun b h1 h2 h3 => by rw [hv]; exact hb.2.2.1 b h1 h2 h3,
    fun h => by rw [hv]; exact hb.2.2.2 h⟩

/-- Oracle for the C4 scenario: the IRQ for channel 1 fires with STCS
showing bit 1 set (value 2); the enable-sync wait sees 0 immediately. -/
def rC4 : ℕ → ℕ → ℕ := fun k _ => if k = 0 then 2 else 0

/-- Counterexample to C4 as stated: for channel 1 with status bit 1 set, the
dispatcher's single STCS write has value 2 — bit 1 is still *set* in the
written register value (the code writes a 1 there as the W1C acknowledge),
so the dispatcher does not "clear bit 1" of the status register. -/
theorem c4_interrupt_dispatch_counterexample :
    (readl rC4 0 KONA_GPTIMER_STCS_OFFSET).testBit 1 = true ∧
    (kona_timer_interrupt rC4 0 1 true).2.1 =
      [KAction.write KONA_GPTIMER_STCS_OFFSET 2, KAction.invoke] ∧
    (2 : ℕ).testBit 1 = true ∧
    (2 : ℕ).testBit 5 = false := by
  decide

/-- Witness for C4 (amended) at the concrete scenario: with a consumer the
trace is one clearing write then one invocation; bit 5 is cleared and bit 1
set in the written value; without a consumer the write still happens, the
callback does not, and the IRQ is handled. -/
theorem c4_interrupt_dispatch_witness :
    (1 : ℕ) < MAX_NUM_CHANNELS ∧
    (kona_timer_interrupt rC4 0 1 true).2.1 =
      [KAction.write KONA_GPTIMER_STCS_OFFSET (kona_timer_disable_and_clear rC4 0 1).2,
       KAction.invoke] ∧
    (kona_timer_disable_and_clear rC4 0 1).2.testBit (4 + 1) = false ∧
    (kona_timer_disable_and_clear rC4 0 1).2.testBit 1 = true ∧
    (kona_timer_interrupt rC4 0 1 false).2.1 =
      [KAction.write KONA_GPTIMER_STCS_OFFSET (kona_timer_disable_and_clear rC4 0 1).2] ∧
    (kona_timer_interrupt rC4 0 1 false).2.2 = true :=
  have h := c4_interrupt_dispatch_amended rC4 0 1 true (by decide)
  have h' := c4_interrupt_dispatch_amended rC4 0 1 false (by decide)
  ⟨by decide, by rw [h.1] <;> rfl, h.2.1, h.2.2.1, by rw [h'.1] <;> rfl,
   by rw [h'.1] <;> rfl⟩

/-! ### Counter-trace hypotheses: registers derived from a monotone counter -/

theorem readl_hi_eq (r : ℕ → ℕ → ℕ) (c : ℕ → ℕ) (hb : ∀ t, c t < 2 ^ 64)
    (hhi : ∀ k, r k KONA_GPTIMER_STCHI_OFFSET = c k / 2 ^ 32) (k : ℕ) :
    readl r k KONA_GPTIMER_STCHI_OFFSET = c k / 2 ^ 32 := by
  rw [readl, hhi k, Nat.mod_eq_of_lt]
  have h1 : c k < 2 ^ 32 * 2 ^ 32 := by
    have := hb k
    norm_num at this ⊢
    omega
  exact (Nat.div_lt_iff_lt_mul (by norm_num)).mpr h1

theorem readl_lo_eq (r : ℕ → ℕ → ℕ) (c : ℕ → ℕ)
    (hlo : ∀ k, r k KONA_GPTIMER_STCLO_OFFSET = c k % 2 ^ 32) (k : ℕ) :
    readl r k KONA_GPTIMER_STCLO_OFFSET = c k % 2 ^ 32 := by
  rw [readl, hlo k, Nat.mod_mod_of_dvd _ dvd_rfl]

/-- If the high word did not change over `[t1, t3]` then the pair
(high at `t1`, low at `t2`) is the counter value at `t2`. -/
theorem counter_val_eq (c : ℕ → ℕ) (hm : Monotone c) (t1 t2 t3 : ℕ)
    (h12 : t1 ≤ t2) (h23 : t2 ≤ t3) (heq : c t1 / 2 ^ 32 = c t3 / 2 ^ 32) :
    c t1 / 2 ^ 32 * 2 ^ 32 + c t2 % 2 ^ 32 = c t2 := by
  have hle1 : c t1 / 2 ^ 32 ≤ c t2 / 2 ^ 32 := Nat.div_le_div_right (hm h12)
  have hle2 : c t2 / 2 ^ 32 ≤ c t3 / 2 ^ 32 := Nat.div_le_div_right (hm h23)
  have hmid : c t2 / 2 ^ 32 = c t1 / 2 ^ 32 := by omega
  rw [← hmid, mul_comm]
  exact Nat.div_add_mod _ _

/-- Claim C2: the counter reader returns (H1, L) after the three reads
exactly when the two high-word reads agree, retries on mismatch (second and
third attempts use the subsequent reads), fails after three mismatching
attempts, and any successful result equals the monotone hardware counter at
some instant within the read window (never a torn value). -/
theorem c2_counter_read_correct (r : ℕ → ℕ → ℕ) (n : ℕ) :
    (readl r n KONA_GPTIMER_STCHI_OFFSET = readl r (n + 2) KONA_GPTIMER_STCHI_OFFSET →
      kona_timer_get_counter r n =
        ⟨n + 3, readl r n KONA_GPTIMER_STCHI_OFFSET,
          readl r (n + 1) KONA_GPTIMER_STCLO_OFFSET, true⟩) ∧
    (readl r n KONA_GPTIMER_STCHI_OFFSET ≠ readl r (n + 2) KONA_GPTIMER_STCHI_OFFSET →
      readl r (n + 3) KONA_GPTIMER_STCHI_OFFSET = readl r (n + 5) KONA_GPTIMER_STCHI_OFFSET →
      kona_timer_get_counter r n =
        ⟨n + 6, readl r (n + 3) KONA_GPTIMER_STCHI_OFFSET,
          readl r (n + 4) KONA_GPTIMER_STCLO_OFFSET, true⟩) ∧
    (readl r n KONA_GPTIMER_STCHI_OFFSET ≠ readl r (n + 2) KONA_GPTIMER_STCHI_OFFSET →
      readl r (n + 3) KONA_GPTIMER_STCHI_OFFSET ≠ readl r (n + 5) KONA_GPTIMER_STCHI_OFFSET →
      readl r (n + 6) KONA_GPTIMER_STCHI_OFFSET = readl r (n + 8) KONA_GPTIMER_STCHI_OFFSET →
      kona_timer_get_counter r n =
        ⟨n + 9, readl r (n + 6) KONA_GPTIMER_STCHI_OFFSET,
          readl r (n + 7) KONA_GPTIMER_STCLO_OFFSET, true⟩) ∧
    (readl r n KONA_GPTIMER_STCHI_OFFSET ≠ readl r (n + 2) KONA_GPTIMER_STCHI_OFFSET →
      readl r (n + 3) KONA_GPTIMER_STCHI_OFFSET ≠ readl r (n + 5) KONA_GPTIMER_STCHI_OFFSET →
      readl r (n + 6) KONA_GPTIMER_STCHI_OFFSET ≠ readl r (n + 8) KONA_GPTIMER_STCHI_OFFSET →
      (kona_timer_get_counter r n).ok = false) ∧
    (∀ c : ℕ → ℕ, Monotone c → (∀ t, c t < 2 ^ 64) →
      (∀ k, r k KONA_GPTIMER_STCLO_OFFSET = c k % 2 ^ 32) →
      (∀ k, r k KONA_GPTIMER_STCHI_OFFSET = c k / 2 ^ 32) →
      (kona_timer_get_counter r n).ok = true →
      ∃ u, n ≤ u ∧ u < (kona_timer_get_counter r n).next ∧
        (kona_timer_get_counter r n).msw * 2 ^ 32 + (kona_timer_get_counter r n).lsw = c u) := by
  refine ⟨?_, ?_, ?_, ?_, ?_⟩
  · intro h1
    rw [kona_timer_get_counter_eq, if_pos h1]
  · intro h1 h2
    rw [kona_timer_get_counter_eq, if_neg h1, if_pos h2]
  · intro h1 h2 h3
    rw [kona_timer_get_counter_eq, if_neg h1, if_neg h2, if_pos h3]
  · intro h1 h2 h3
    rw [kona_timer_get_counter_eq, if_neg h1, if_neg h2, if_neg h3]
  · intro c hm hb hlo hhi hok
    have hR := readl_hi_eq r c hb hhi
    have hL := readl_lo_eq r c hlo
    by_cases h1 : readl r n KONA_GPTIMER_STCHI_OFFSET =
        readl r (n + 2) KONA_GPTIMER_STCHI_OFFSET
    · have hres : kona_timer_get_counter r n =
          ⟨n + 3, readl r n KONA_GPTIMER_STCHI_OFFSET,
            readl r (n + 1) KONA_GPTIMER_STCLO_OFFSET, true⟩ := by
        rw [kona_timer_get_counter_eq, if_pos h1]
      rw [hR n, hR (n + 2)] at h1
      refine ⟨n + 1, by omega, ?_, ?_⟩
      · rw [hres]
        show n + 1 < n + 3
        omega
      · rw [hres]
        show readl r n KONA_GPTIMER_STCHI_OFFSET * 2 ^ 32 +
          readl r (n + 1) KONA_GPTIMER_STCLO_OFFSET = c (n + 1)
        rw [hR n, hL (n + 1)]
        exact counter_val_eq c hm n (n + 1) (n + 2) (by omega) (by omega) h1
    · by_cases h2 : readl r (n + 3) KONA_GPTIMER_STCHI_OFFSET =
          readl r (n + 5) KONA_GPTIMER_STCHI_OFFSET
      · have hres : kona_timer_get_counter r n =
            ⟨n + 6, readl r (n + 3) KONA_GPTIMER_STCHI_OFFSET,
              readl r (n + 4) KONA_GPTIMER_STCLO_OFFSET, true⟩ := by
          rw [kona_timer_get_counter_eq, if_neg h1, if_pos h2]
        rw [hR (n + 3), hR (n + 5)] at h2
        refine ⟨n + 4, by omega, ?_, ?_⟩
        · rw [hres]
          show n + 4 < n + 6
          omega
        · rw [hres]
          show readl r (n + 3) KONA_GPTIMER_STCHI_OFFSET * 2 ^ 32 +
            readl r (n + 4) KONA_GPTIMER_STCLO_OFFSET = c (n + 4)
          rw [hR (n + 3), hL (n + 4)]
          exact counter_val_eq c hm (n + 3) (n + 4) (n + 5) (by omega) (by omega) h2
      · by_cases h3 : readl r (n + 6) KONA_GPTIMER_STCHI_OFFSET =
            readl r (n + 8) KONA_GPTIMER_STCHI_OFFSET
        · have hres : kona_timer_get_counter r n =
              ⟨n + 9, readl r (n + 6) KONA_GPTIMER_STCHI_OFFSET,
                readl r (n + 7) KONA_GPTIMER_STCLO_OFFSET, true⟩ := by
            rw [kona_timer_get_counter_eq, if_neg h1, if_neg h2, if_pos h3]
          rw [hR (n + 6), hR (n + 8)] at h3
          refine ⟨n + 7, by omega, ?_, ?_⟩
          · rw [hres]
            show n + 7 < n + 9
            omega
          · rw [hres]
            show readl r (n + 6) KONA_GPTIMER_STCHI_OFFSET * 2 ^ 32 +
              readl r (n + 7) KONA_GPTIMER_STCLO_OFFSET = c (n + 7)
            rw [hR (n + 6), hL (n + 7)]
            exact counter_val_eq c hm (n + 6) (n + 7) (n + 8) (by omega) (by omega) h3
        · exfalso
          rw [kona_timer_get_counter_eq, if_neg h1, if_neg h2, if_neg h3] at hok
          simp at hok

/-- Oracle/counter pair for the C2 witness: the counter is frozen at
`5 * 2^32 + 7`, so the first attempt succeeds. -/
def rC2 : ℕ → ℕ → ℕ := fun _ off => if off = KONA_GPTIMER_STCHI_OFFSET then 5 else 7

/-- Counter trace backing `rC2`. -/
def cC2 : ℕ → ℕ := fun _ => 5 * 2 ^ 32 + 7

/-- Witness for C2: at the frozen counter the reader returns `(5 << 32) + 7`
at the first attempt, and the result is a genuine snapshot of the counter. -/
theorem c2_counter_read_correct_witness :
    kona_timer_get_counter rC2 0 = ⟨3, 5, 7, true⟩ ∧
    (∃ u, 0 ≤ u ∧ u < (kona_timer_get_counter rC2 0).next ∧
      (kona_timer_get_counter rC2 0).msw * 2 ^ 32 + (kona_timer_get_counter rC2 0).lsw =
        cC2 u) :=
  have h := c2_counter_read_correct rC2 0
  ⟨h.1 (by decide),
   h.2.2.2.2 cC2 (fun _ _ _ => le_rfl) (fun _ => by norm_num [cC2])
     (fun k => by norm_num [rC2, cC2, KONA_GPTIMER_STCLO_OFFSET, KONA_GPTIMER_STCHI_OFFSET])
     (fun k => by norm_num [rC2, cC2, KONA_GPTIMER_STCHI_OFFSET])
     (by decide)⟩

/-- Sandwich bounds for one counter read against a monotone hardware counter:
the assembled value (even a failed, torn one) lies between the counter value
at the first read and the counter value at the end of the call.  Three failed
attempts force the high word up by at least 2, which keeps even the torn
value above everything observed before the call. -/
theorem getCounter_bounds (r : ℕ → ℕ → ℕ) (c : ℕ → ℕ) (n : ℕ)
    (hm : Monotone c) (hb : ∀ t, c t < 2 ^ 64)
    (hlo : ∀ k, r k KONA_GPTIMER_STCLO_OFFSET = c k % 2 ^ 32)
    (hhi : ∀ k, r k KONA_GPTIMER_STCHI_OFFSET = c k / 2 ^ 32) :
    c n ≤ (kona_timer_get_counter r n).msw * 2 ^ 32 + (kona_timer_get_counter r n).lsw ∧
    (kona_timer_get_counter r n).msw * 2 ^ 32 + (kona_timer_get_counter r n).lsw ≤
      c ((kona_timer_get_counter r n).next) ∧
    n ≤ (kona_timer_get_counter r n).next := by
  have hR := readl_hi_eq r c hb hhi
  have hL := readl_lo_eq r c hlo
  by_cases h1 : readl r n KONA_GPTIMER_STCHI_OFFSET =
      readl r (n + 2) KONA_GPTIMER_STCHI_OFFSET
  · have hres : kona_timer_get_counter r n =
        ⟨n + 3, readl r n KONA_GPTIMER_STCHI_OFFSET,
          readl r (n + 1) KONA_GPTIMER_STCLO_OFFSET, true⟩ := by
      rw [kona_timer_get_counter_eq, if_pos h1]
    rw [hR n, hR (n + 2)] at h1
    have hval : readl r n KONA_GPTIMER_STCHI_OFFSET * 2 ^ 32 +
        readl r (n + 1) KONA_GPTIMER_STCLO_OFFSET = c (n + 1) := by
      rw [hR n, hL (n + 1)]
      exact counter_val_eq c hm n (n + 1) (n + 2) (by omega) (by omega) h1
    rw [hres]
    refine ⟨?_, ?_, by show n ≤ n + 3; omega⟩
    · show c n ≤ readl r n KONA_GPTIMER_STCHI_OFFSET * 2 ^ 32 +
        readl r (n + 1) KONA_GPTIMER_STCLO_OFFSET
      rw [hval]
      exact hm (by omega)
    · show readl r n KONA_GPTIMER_STCHI_OFFSET * 2 ^ 32 +
        readl r (n + 1) KONA_GPTIMER_STCLO_OFFSET ≤ c (n + 3)
      rw [hval]
      exact hm (by omega)
  · by_cases h2 : readl r (n + 3) KONA_GPTIMER_STCHI_OFFSET =
        readl r (n + 5) KONA_GPTIMER_STCHI_OFFSET
    · have hres : kona_timer_get_counter r n =
          ⟨n + 6, readl r (n + 3) KONA_GPTIMER_STCHI_OFFSET,
            readl r (n + 4) KONA_GPTIMER_STCLO_OFFSET, true⟩ := by
        rw [kona_timer_get_counter_eq, if_neg h1, if_pos h2]
      rw [hR (n + 3), hR (n + 5)] at h2
      have hval : readl r (n + 3) KONA_GPTIMER_STCHI_OFFSET * 2 ^ 32 +
          readl r (n + 4) KONA_GPTIMER_STCLO_OFFSET = c (n + 4) := by
        rw [hR (n + 3), hL (n + 4)]
        exact counter_val_eq c hm (n + 3) (n + 4) (n + 5) (by omega) (by omega) h2
      rw [hres]
      refine ⟨?_, ?_, by show n ≤ n + 6; omega⟩
      · show c n ≤ readl r (n + 3) KONA_GPTIMER_STCHI_OFFSET * 2 ^ 32 +
          readl r (n + 4) KONA_GPTIMER_STCLO_OFFSET
        rw [hval]
        exact hm (by omega)
      · show readl r (n + 3) KONA_GPTIMER_STCHI_OFFSET * 2 ^ 32 +
          readl r (n + 4) KONA_GPTIMER_STCLO_OFFSET ≤ c (n + 6)
        rw [hval]
        exact hm (by omega)
    · by_cases h3 : readl r (n + 6) KONA_GPTIMER_STCHI_OFFSET =
          readl r (n + 8) KONA_GPTIMER_STCHI_OFFSET
      · have hres : kona_timer_get_counter r n =
            ⟨n + 9, readl r (n + 6) KONA_GPTIMER_STCHI_OFFSET,
              readl r (n + 7) KONA_GPTIMER_STCLO_OFFSET, true⟩ := by
          rw [kona_timer_get_counter_eq, if_neg h1, if_neg h2, if_pos h3]
        rw [hR (n + 6), hR (n + 8)] at h3
        have hval : readl r (n + 6) KONA_GPTIMER_STCHI_OFFSET * 2 ^ 32 +
            readl r (n + 7) KONA_GPTIMER_STCLO_OFFSET = c (n + 7) := by
          rw [hR (n + 6), hL (n + 7)]
          exact counter_val_eq c hm (n + 6) (n + 7) (n + 8) (by omega) (by omega) h3
        rw [hres]
        refine ⟨?_, ?_, by show n ≤ n + 9; omega⟩
        · show c n ≤ readl r (n + 6) KONA_GPTIMER_STCHI_OFFSET * 2 ^ 32 +
            readl r (n + 7) KONA_GPTIMER_STCLO_OFFSET
          rw [hval]
          exact hm (by omega)
        · show readl r (n + 6) KONA_GPTIMER_STCHI_OFFSET * 2 ^ 32 +
            readl r (n + 7) KONA_GPTIMER_STCLO_OFFSET ≤ c (n + 9)
          rw [hval]
          exact hm (by omega)
      · have hres : kona_timer_get_counter r n =
            ⟨n + 9, readl r (n + 6) KONA_GPTIMER_STCHI_OFFSET,
              readl r (n + 7) KONA_GPTIMER_STCLO_OFFSET, false⟩ := by
          rw [kona_timer_get_counter_eq, if_neg h1, if_neg h2, if_neg h3]
        rw [hR n, hR (n + 2)] at h1
        rw [hR (n + 3), hR (n + 5)] at h2
        have a1 : c n / 2 ^ 32 < c (n + 2) / 2 ^ 32 :=
          lt_of_le_of_ne (Nat.div_le_div_right (hm (by omega))) h1
        have a2 : c (n + 2) / 2 ^ 32 ≤ c (n + 3) / 2 ^ 32 :=
          Nat.div_le_div_right (hm (by omega))
        have a3 : c (n + 3) / 2 ^ 32 < c (n + 5) / 2 ^ 32 :=
          lt_of_le_of_ne (Nat.div_le_div_right (hm (by omega))) h2
        have a4 : c (n + 5) / 2 ^ 32 ≤ c (n + 6) / 2 ^ 32 :=
          Nat.div_le_div_right (hm (by omega))
        have hdm := Nat.div_add_mod (c n) (2 ^ 32)
        have hmod : c n % 2 ^ 32 < 2 ^ 32 := Nat.mod_lt _ (by norm_num)
        have hcn : c n < (c n / 2 ^ 32 + 1) * 2 ^ 32 := by
          rw [Nat.add_mul, one_mul]
          omega
        have h67 : c (n + 6) / 2 ^ 32 ≤ c (n + 7) / 2 ^ 32 :=
          Nat.div_le_div_right (hm (by omega))
        rw [hres]
        refine ⟨?_, ?_, by show n ≤ n + 9; omega⟩
        · show c n ≤ readl r (n + 6) KONA_GPTIMER_STCHI_OFFSET * 2 ^ 32 +
            readl r (n + 7) KONA_GPTIMER_STCLO_OFFSET
          rw [hR (n + 6), hL (n + 7)]
          have hmul : (c n / 2 ^ 32 + 1) * 2 ^ 32 ≤ c (n + 6) / 2 ^ 32 * 2 ^ 32 :=
            Nat.mul_le_mul_right _ (by omega)
          calc c n ≤ (c n / 2 ^ 32 + 1) * 2 ^ 32 := le_of_lt hcn
            _ ≤ c (n + 6) / 2 ^ 32 * 2 ^ 32 := hmul
            _ ≤ c (n + 6) / 2 ^ 32 * 2 ^ 32 + c (n + 7) % 2 ^ 32 := Nat.le_add_right _ _
        · show readl r (n + 6) KONA_GPTIMER_STCHI_OFFSET * 2 ^ 32 +
            readl r (n + 7) KONA_GPTIMER_STCLO_OFFSET ≤ c (n + 9)
          rw [hR (n + 6), hL (n + 7)]
          calc c (n + 6) / 2 ^ 32 * 2 ^ 32 + c (n + 7) % 2 ^ 32
              ≤ c (n + 7) / 2 ^ 32 * 2 ^ 32 + c (n + 7) % 2 ^ 32 :=
                Nat.add_le_add_right (Nat.mul_le_mul_right _ h67) _
            _ = c (n + 7) := by rw [mul_comm]; exact Nat.div_add_mod _ _
            _ ≤ c (n + 9) := hm (by omega)

/-- Claim C8: under a monotone (non-wrapping 64-bit) hardware counter,
sequential clocksource reads are non-decreasing — including reads whose
anti-tearing retry loop exhausts its 3 attempts and returns a torn value. -/
theorem c8_clocksource_monotone (r : ℕ → ℕ → ℕ) (c : ℕ → ℕ) (n m : ℕ)
    (hm : Monotone c) (hb : ∀ t, c t < 2 ^ 64)
    (hlo : ∀ k, r k KONA_GPTIMER_STCLO_OFFSET = c k % 2 ^ 32)
    (hhi : ∀ k, r k KONA_GPTIMER_STCHI_OFFSET = c k / 2 ^ 32)
    (hseq : (kona_timer_clocksrc_read r n).1 ≤ m) :
    (kona_timer_clocksrc_read r n).2 ≤ (kona_timer_clocksrc_read r m).2 := by
  have hn := getCounter_bounds r c n hm hb hlo hhi
  have hm2 := getCounter_bounds r c m hm hb hlo hhi
  have e1 : (kona_timer_clocksrc_read r n).2 =
      (kona_timer_get_counter r n).msw * 2 ^ 32 + (kona_timer_get_counter r n).lsw := rfl
  have e2 : (kona_timer_clocksrc_read r m).2 =
      (kona_timer_get_counter r m).msw * 2 ^ 32 + (kona_timer_get_counter r m).lsw := rfl
  have e3 : (kona_timer_clocksrc_read r n).1 = (kona_timer_get_counter r n).next := rfl
  rw [e1, e2]
  calc (kona_timer_get_counter r n).msw * 2 ^ 32 + (kona_timer_get_counter r n).lsw
      ≤ c ((kona_timer_get_counter r n).next) := hn.2.1
    _ ≤ c m := hm (by rw [← e3]; exact hseq)
    _ ≤ (kona_timer_get_counter r m).msw * 2 ^ 32 + (kona_timer_get_counter r m).lsw :=
      hm2.1

/-- Counter trace for the C8 witness: advances one high-word per read until
it saturates, so every 3-attempt read fails (torn values). -/
def cC8 : ℕ → ℕ := fun t => min t 1000 * 2 ^ 32

/-- Oracle derived from `cC8`. -/
def rC8 : ℕ → ℕ → ℕ := fun k off =>
  if off = KONA_GPTIMER_STCHI_OFFSET then min k 1000 else min k 1000 * 2 ^ 32 % 2 ^ 32

/-- Witness for C8 at a counter on which both sequential reads exhaust their
retry loops: the values are still non-decreasing. -/
theorem c8_clocksource_monotone_witness :
    (kona_timer_get_counter rC8 0).ok = false ∧
    (kona_timer_clocksrc_read rC8 0).1 ≤ 9 ∧
    (kona_timer_clocksrc_read rC8 0).2 ≤ (kona_timer_clocksrc_read rC8 9).2 :=
  ⟨by decide, by decide,
   c8_clocksource_monotone rC8 cC8 0 9
     (by
       intro a b hab
       exact Nat.mul_le_mul_right _ (min_le_min hab le_rfl))
     (fun t =>
       lt_of_le_of_lt (Nat.mul_le_mul_right _ (min_le_right t 1000)) (by norm_num))
     (fun k => rfl)
     (fun k => by
       show rC8 k KONA_GPTIMER_STCHI_OFFSET = cC8 k / 2 ^ 32
       simp [rC8, cC8, Nat.mul_div_cancel])
     (by decide)⟩

/-- Claim C9: each sync wait polls STCS at most 1000 times, returns at the
first poll satisfying its condition (compare-value sync: bit `12 + ch` set;
compare-enable sync: bit `8 + ch` equal to `target`), and when the condition
never becomes true it stops after exactly 1000 polls, merely recording the
timeout (the `Bool` in the result models the log) and returning without
retrying or propagating an error. -/
theorem c9_sync_wait_bounded (r : ℕ → ℕ → ℕ) (n ch target : ℕ) :
    ((kona_wait_for_compare_val_sync r n ch).1 ≤ n + 1000) ∧
    (∀ k, k < 1000 →
      (∀ j, j < k → readl r (n + j) KONA_GPTIMER_STCS_OFFSET &&&
        (1 <<< (KONA_GPTIMER_STCS_STCM0_SYNC_SHIFT + ch)) = 0) →
      readl r (n + k) KONA_GPTIMER_STCS_OFFSET &&&
        (1 <<< (KONA_GPTIMER_STCS_STCM0_SYNC_SHIFT + ch)) ≠ 0 →
      kona_wait_for_compare_val_sync r n ch = (n + k + 1, false)) ∧
    ((∀ k, k < 1000 → readl r (n + k) KONA_GPTIMER_STCS_OFFSET &&&
        (1 <<< (KONA_GPTIMER_STCS_STCM0_SYNC_SHIFT + ch)) = 0) →
      kona_wait_for_compare_val_sync r n ch = (n + 1000, true)) ∧
    ((kona_wait_for_compare_enable_sync r n ch target).1 ≤ n + 1000) ∧
    (∀ k, k < 1000 →
      (∀ j, j < k → (readl r (n + j) KONA_GPTIMER_STCS_OFFSET &&&
        (1 <<< (KONA_GPTIMER_STCS_COMPARE_ENABLE_SYNC_SHIFT + ch))) >>>
        (KONA_GPTIMER_STCS_COMPARE_ENABLE_SYNC_SHIFT + ch) ≠ target) →
      (readl r (n + k) KONA_GPTIMER_STCS_OFFSET &&&
        (1 <<< (KONA_GPTIMER_STCS_COMPARE_ENABLE_SYNC_SHIFT + ch))) >>>
        (KONA_GPTIMER_STCS_COMPARE_ENABLE_SYNC_SHIFT + ch) = target →
      kona_wait_for_compare_enable_sync r n ch target = (n + k + 1, false)) ∧
    ((∀ k, k < 1000 → (readl r (n + k) KONA_GPTIMER_STCS_OFFSET &&&
        (1 <<< (KONA_GPTIMER_STCS_COMPARE_ENABLE_SYNC_SHIFT + ch))) >>>
        (KONA_GPTIMER_STCS_COMPARE_ENABLE_SYNC_SHIFT + ch) ≠ target) →
      kona_wait_for_compare_enable_sync r n ch target = (n + 1000, true)) := by
  refine ⟨?_, ?_, ?_, ?_, ?_, ?_⟩
  · exact syncWaitAux_fst_le _ 1000 n
  · intro k hk hmiss hhit
    exact syncWaitAux_found _ k 1000 n hk
      (fun j hj => by simp [hmiss j hj]) (by simp [hhit])
  · intro hmiss
    exact syncWaitAux_timeout _ 1000 n (by omega) (fun k hk => by simp [hmiss k hk])
  · exact syncWaitAux_fst_le _ 1000 n
  · intro k hk hmiss hhit
    exact syncWaitAux_found _ k 1000 n hk
      (fun j hj => by simp [hmiss j hj]) (by simp [hhit])
  · intro hmiss
    exact syncWaitAux_timeout _ 1000 n (by omega) (fun k hk => by simp [hmiss k hk])

/-- Oracle on which both wait conditions hold at the very first poll
(all STCS bits set). -/
def rSyncHit : ℕ → ℕ → ℕ := fun _ _ => 4294967295

/-- Oracle on which neither wait condition for target 1 ever holds
(STCS always 0). -/
def rSyncMiss : ℕ → ℕ → ℕ := fun _ _ => 0

/-- Witness for C9: immediate return at a first-poll hit, and exactly 1000
polls with a recorded timeout when the bit never appears. -/
theorem c9_sync_wait_bounded_witness :
    kona_wait_for_compare_val_sync rSyncHit 0 0 = (1, false) ∧
    kona_wait_for_compare_enable_sync rSyncHit 0 0 1 = (1, false) ∧
    kona_wait_for_compare_val_sync rSyncMiss 0 0 = (1000, true) ∧
    kona_wait_for_compare_enable_sync rSyncMiss 0 0 1 = (1000, true) :=
  have hHit := c9_sync_wait_bounded rSyncHit 0 0 1
  have hMiss := c9_sync_wait_bounded rSyncMiss 0 0 1
  ⟨hHit.2.1 0 (by norm_num) (fun j hj => absurd hj (by omega)) (by decide),
   hHit.2.2.2.2.1 0 (by norm_num) (fun j hj => absurd hj (by omega)) (by decide),
   hMiss.2.2.1 (fun k _ => by simp [readl, rSyncMiss]),
   hMiss.2.2.2.2.2 (fun k _ => by simp [readl, rSyncMiss])⟩

/-! ### Registry fixtures -/

/-- Valid non-gptimer geometry: clock present, 2 IRQs, all bindings succeed. -/
def geoA : Geometry :=
  { allocOk := true, clkPresent := true, clkRate := 32768, freq := 0,
    iomapOk := true, isGptimer := false, irqCount := 2,
    irqAt := fun i => 64 + i, bindOk := fun _ => true }

/-- State after one successful probe of `geoA`. -/
def st1 : KonaState := (kona_timer_init initialKonaState geoA).1

/-- State after a second successful probe of `geoA`. -/
def st2 : KonaState := (kona_timer_init st1 geoA).1

/-- The timer record stored by the first probe of `geoA`. -/
def t1 : KonaTimer :=
  ⟨0, 32768, false, 2, true, false,
   [⟨0, 0, 64, false⟩, ⟨0, 1, 65, false⟩, zeroChannel, zeroChannel]⟩

/-- Claim C3 (evaluation at the failing input): with only two instances
registered — fewer than the documented maximum of `MAX_NUM_TIMERS = 3` — a
third creation with perfectly valid geometry is rejected with `-EINVAL`
by the guard `(num_timers + 1) >= MAX_NUM_TIMERS`, which admits at most two
instances.  The rejection itself does leave the registry untouched. -/
theorem c3_registry_capacity_code_bug_eval :
    MAX_NUM_TIMERS = 3 ∧
    st2.num_timers = 2 ∧
    (kona_timer_init st2 geoA).2.1 = -22 ∧
    (kona_timer_init st2 geoA).1 = st2 ∧
    (kona_timer_init st2 geoA).2.2 = [] :=
  ⟨rfl, by decide, by decide, rfl, by decide⟩

/-- Geometry whose third IRQ binding fails (of three). -/
def geoC6 : Geometry :=
  { allocOk := true, clkPresent := true, clkRate := 32768, freq := 0,
    iomapOk := true, isGptimer := false, irqCount := 3,
    irqAt := fun i => 100 + i, bindOk := fun i => decide (i ≠ 2) }

/-- Claim C6 (evaluation at the failing input): when `request_irq` fails at
channel 2, creation fails with `-EINVAL`, the two previously bound IRQs are
freed in reverse order (`[101, 100]`), the instance memory is freed
(`heap 0 = none`), and `num_timers`/`local_timer`/hotplug state are
untouched — but `timers[0]`, written *before* the IRQ loop, still holds the
pointer to the freed instance (`table 0` changed from `none` to `some 0`),
so a stale partial registration remains in the registry table. -/
theorem c6_irq_unwind_code_bug_eval :
    (kona_timer_init initialKonaState geoC6).2.1 = -22 ∧
    (kona_timer_init initialKonaState geoC6).2.2 = [101, 100] ∧
    (kona_timer_init initialKonaState geoC6).1.num_timers = initialKonaState.num_timers ∧
    (kona_timer_init initialKonaState geoC6).1.local_timer = initialKonaState.local_timer ∧
    (kona_timer_init initialKonaState geoC6).1.cpuhp_installs =
      initialKonaState.cpuhp_installs ∧
    (kona_timer_init initialKonaState geoC6).1.heap 0 = none ∧
    initialKonaState.table 0 = none ∧
    (kona_timer_init initialKonaState geoC6).1.table 0 = some 0 := by
  decide

/-- Claim C7 (amended): *every* successful creation of a non-gptimer
(event-multiplexer) instance designates that instance as the local timer —
overwriting any previous designation — and runs the hotplug-hook
installation again. -/
theorem c7_local_timer_amended (s : KonaState) (g : Geometry)
    (hgp : g.isGptimer = false) (hret : (kona_timer_init s g).2.1 = 0) :
    (kona_timer_init s g).1.local_timer = (s.num_timers : ℤ) ∧
    (kona_timer_init s g).1.cpuhp_installs = s.cpuhp_installs + 1 := by
  by_cases hcap : s.num_timers + 1 ≥ MAX_NUM_TIMERS
  · rw [show (kona_timer_init s g).2.1 = -22 from by simp [kona_timer_init, hcap]] at hret
    norm_num at hret
  · by_cases halloc : g.allocOk = false
    · rw [show (kona_timer_init s g).2.1 = -12 from by
        simp [kona_timer_init, hcap, halloc]] at hret
      norm_num at hret
    · by_cases hclk : g.clkPresent
      · by_cases hio : g.iomapOk = false
        · rw [show (kona_timer_init s g).2.1 = -22 from by
            simp [kona_timer_init, hcap, halloc, hclk, hio]] at hret
          norm_num at hret
        · by_cases hirq : g.irqCount = 0
          · rw [show (kona_timer_init s g).2.1 = -22 from by
              simp [kona_timer_init, hcap, halloc, hclk, hio, hirq]] at hret
            norm_num at hret
          · cases hbind : bindChannels g s.num_timers (min g.irqCount MAX_NUM_CHANNELS) 0 with
            | error j =>
              rw [show (kona_timer_init s g).2.1 = -22 from by
                simp [kona_timer_init, hcap, halloc, hclk, hio, hirq, hgp, hbind]] at hret
              norm_num at hret
            | ok chans =>
              constructor <;>
                simp [kona_timer_init, hcap, halloc, hclk, hio, hirq, hgp, hbind]
      · by_cases hfreq : g.freq ≠ 0
        · by_cases hio : g.iomapOk = false
          · rw [show (kona_timer_init s g).2.1 = -22 from by
              simp [kona_timer_init, hcap, halloc, hclk, hfreq, hio]] at hret
            norm_num at hret
          · by_cases hirq : g.irqCount = 0
            · rw [show (kona_timer_init s g).2.1 = -22 from by
                simp [kona_timer_init, hcap, halloc, hclk, hfreq, hio, hirq]] at hret
              norm_num at hret
            · cases hbind : bindChannels g s.num_timers (min g.irqCount MAX_NUM_CHANNELS) 0 with
              | error j =>
                rw [show (kona_timer_init s g).2.1 = -22 from by
                  simp [kona_timer_init, hcap, halloc, hclk, hfreq, hio, hirq, hgp,
                    hbind]] at hret
                norm_num at hret
              | ok chans =>
                constructor <;>
                  simp [kona_timer_init, hcap, halloc, hclk, hfreq, hio, hirq, hgp, hbind]
        · rw [show (kona_timer_init s g).2.1 = -22 from by
            simp [kona_timer_init, hcap, halloc, hclk, hfreq]] at hret
          norm_num at hret

/-- Counterexample to C7 as stated: two successive non-gptimer probes — the
designated local timer's identity changes from 0 to 1 and the hotplug hooks
are installed a second time. -/
theorem c7_local_timer_counterexample :
    st1.local_timer = 0 ∧ st1.cpuhp_installs = 1 ∧
    st2.local_timer = 1 ∧ st2.cpuhp_installs = 2 := by
  decide

/-- Witness for C7 (amended): probing `geoA` on top of `st1` re-designates
the local timer to the new instance and increments the hook-install count. -/
theorem c7_local_timer_witness :
    geoA.isGptimer = false ∧
    (kona_timer_init st1 geoA).2.1 = 0 ∧
    (kona_timer_init st1 geoA).1.local_timer = (st1.num_timers : ℤ) ∧
    (kona_timer_init st1 geoA).1.cpuhp_installs = st1.cpuhp_installs + 1 :=
  have h := c7_local_timer_amended st1 geoA (by decide) (by decide)
  ⟨by decide, by decide, h.1, h.2⟩

/-- Claim C10: `cpu_start`/`cpu_stop` guard only against the absence of a
designated local timer (returning `-ENODEV`); with a local timer designated
they index its fixed 4-slot channel array directly by the CPU id with no
check against the instance's channel count, so the access is well-defined
exactly when `cpu ≤ 3`. -/
theorem c10_cpu_hooks_guard (s : KonaState) (cpu : ℕ) (r : ℕ → ℕ → ℕ) (n : ℕ) :
    (s.local_timer < 0 → kona_timer_cpu_start s cpu = some (-19, s) ∧
      kona_timer_cpu_stop r n s cpu = some (-19, [])) ∧
    (∀ ptr t, ¬s.local_timer < 0 → s.table s.local_timer.toNat = some ptr →
      s.heap ptr = some t → t.channels.length = MAX_NUM_CHANNELS →
      (((kona_timer_cpu_start s cpu).isSome = true ↔ cpu ≤ 3) ∧
       ((kona_timer_cpu_stop r n s cpu).isSome = true ↔ cpu ≤ 3))) := by
  constructor
  · intro hlt
    constructor <;> simp [kona_timer_cpu_start, kona_timer_cpu_stop, hlt]
  · intro ptr t hge htab hheap hlen
    have hlen4 : t.channels.length = 4 := hlen
    constructor
    · simp only [kona_timer_cpu_start, if_neg hge, htab, hheap]
      cases hget : t.channels.get? cpu with
      | none =>
        have h4 := List.get?_eq_none.mp hget
        rw [hlen4] at h4
        simp [hget]
        omega
      | some chn =>
        have h4 : cpu < t.channels.length := by
          by_contra hc
          rw [List.get?_eq_none.mpr (by omega)] at hget
          exact absurd hget (by simp)
        rw [hlen4] at h4
        simp [hget]
        omega
    · simp only [kona_timer_cpu_stop, if_neg hge, htab, hheap]
      cases hget : t.channels.get? cpu with
      | none =>
        have h4 := List.get?_eq_none.mp hget
        rw [hlen4] at h4
        simp [hget]
        omega
      | some chn =>
        have h4 : cpu < t.channels.length := by
          by_contra hc
          rw [List.get?_eq_none.mpr (by omega)] at hget
          exact absurd hget (by simp)
        rw [hlen4] at h4
        simp [hget]
        omega

/-- Witness for C10: with no local timer designated both hooks return
`-ENODEV` for any CPU id; with `st1`'s local timer designated, CPU 3 is
accepted and CPU 5 has no defined channel access. -/
theorem c10_cpu_hooks_guard_witness :
    initialKonaState.local_timer < 0 ∧
    kona_timer_cpu_start initialKonaState 7 = some (-19, initialKonaState) ∧
    ¬st1.local_timer < 0 ∧
    st1.table st1.local_timer.toNat = some 0 ∧
    st1.heap 0 = some t1 ∧
    t1.channels.length = MAX_NUM_CHANNELS ∧
    ((kona_timer_cpu_start st1 3).isSome = true ↔ (3 : ℕ) ≤ 3) ∧
    ((kona_timer_cpu_stop (fun _ _ => 0) 0 st1 5).isSome = true ↔ (5 : ℕ) ≤ 3) :=
  have hA := c10_cpu_hooks_guard initialKonaState 7 (fun _ _ => 0) 0
  have hB := c10_cpu_hooks_guard st1 3 (fun _ _ => 0) 0
  have hC := c10_cpu_hooks_guard st1 5 (fun _ _ => 0) 0
  ⟨by decide, (hA.1 (by decide)).1, by decide, by decide, by decide, by decide,
   (hB.2 0 t1 (by decide) (by decide) (by decide) (by decide)).1,
   (hC.2 0 t1 (by decide) (by decide) (by decide) (by decide)).2⟩
